import Mathlib

/-!
Shallow embedding of the two scripts of this repository:
`src/rycom_parking.py` (GIF pipeline: OCR extraction with a colour-analysis
fallback) and `src/parcocity_parking.py` (HTML pipeline: SVG-filename
extraction), together with theorems settling the spec's claims about them.

Conventions of the embedding:
* Python `int` is modelled as `Nat` where the source can only produce digit
  parses (percentages) and as `Int` where the source function is defined on
  all integers (`_pct_to_status`).
* Fallible effects (the HTTP fetch, image decoding, the OCR engine) are
  modelled as explicit `Except String _` inputs carrying the exception text,
  so that the `try/except` structure of the orchestrators becomes a `match`.
* The `re` patterns of the source are implemented directly on `List Char`
  with the ASCII meaning of `\d`, `\s`, `\w` and `\b`; every input relevant
  to the claims is ASCII.
* `colorsys.rgb_to_hsv` is modelled with exact rational arithmetic in place
  of IEEE floats; the concrete pixels used below (pure red, pure green) are
  far from every comparison threshold, where the two semantics agree.
* Wall-clock timestamps (`fetched_at`), logging and the JSON/CSV writers are
  external collaborators per the spec and are outside the embedding.
-/

/-- Python regex `\s` (ASCII range), as used by the `\s*` of `_PCT_RE`. -/
def isSpaceChar (c : Char) : Bool :=
  c = ' ' || c = '\t' || c = '\n' || c = '\r' || c = '\x0B' || c = '\x0C'

/-- Python regex word character `\w` (ASCII range), which determines the
word boundaries `\b` of the standalone-token pattern in `_parse_pct`. -/
def isWordChar (c : Char) : Bool :=
  c.isAlpha || c.isDigit || c = '_'

/-- Numeric value of a digit string, as Python `int` computes it on the
text of a `\d...` capture group. -/
def digitsToNat (l : List Char) : Nat :=
  l.foldl (fun n c => 10 * n + (c.toNat - '0'.toNat)) 0

namespace Rycom

/-- `_pct_to_status` of `src/rycom_parking.py` lines 119-126. -/
def _pct_to_status (pct : Int) : String :=
  if pct ≥ 100 then "full"
  else if pct ≥ 80 then "almost_full"
  else if pct ≥ 50 then "crowded"
  else "available"

/-- One attempt of `_PCT_RE = (\d{1,3})\s*%` (line 73) at a fixed start
position.  The greedy `\d{1,3}` with backtracking is equivalent to: take the
maximal digit run at this position; if it is empty or longer than 3 the
attempt fails (shortening a run always leaves a digit next, which matches
neither `\s` nor `%`); otherwise skip `\s*` greedily and require `%`. -/
def matchPctAt (l : List Char) : Option Nat :=
  let digs := l.takeWhile Char.isDigit
  if digs.length = 0 ∨ 3 < digs.length then none
  else
    match (l.dropWhile Char.isDigit).dropWhile isSpaceChar with
    | '%' :: _ => some (digitsToNat digs)
    | _ => none

/-- `_PCT_RE.search(text)`: the leftmost match of `(\d{1,3})\s*%`, returning
the value of group 1. -/
def searchPct : List Char → Option Nat
  | [] => none
  | c :: rest =>
    match matchPctAt (c :: rest) with
    | some v => some v
    | none => searchPct rest

/-- `\b` before the current position: true at the start of the string or
after a non-word character (the scan below only starts matches on a digit,
which is a word character). -/
def boundaryBefore : Option Char → Bool
  | none => true
  | some c => !isWordChar c

/-- `\b` after a digit run: true at the end of the string or before a
non-word character. -/
def boundaryAfter : List Char → Bool
  | [] => true
  | c :: _ => !isWordChar c

/-- `re.findall(r"\b(\d{1,3})\b", text)` (line 173), scanned position by
position with the previous character as boundary context.  A match emits the
maximal digit run at the position (runs of length 4 or more can never match:
greedy backtracking always leaves a digit, a word character, after the
group).  Positions inside a digit run can never start a match, so the
character-by-character scan agrees with `findall`'s non-overlapping scan. -/
def scanTokens (prev : Option Char) : List Char → List Nat
  | [] => []
  | c :: rest =>
    let tail := scanTokens (some c) rest
    let digs := (c :: rest).takeWhile Char.isDigit
    if boundaryBefore prev ∧ c.isDigit ∧ digs.length ≤ 3 ∧
        boundaryAfter (rest.dropWhile Char.isDigit) then
      digitsToNat digs :: tail
    else
      tail

/-- All `\b(\d{1,3})\b` tokens of a text, in order. -/
def findallTokens (l : List Char) : List Nat := scanTokens none l

/-- The `for token in re.findall(...)` loop of `_parse_pct` (lines 173-176):
the first token whose value lies in `[0, 100]` (the lower bound is automatic
for digit parses). -/
def firstInRange : List Nat → Option Nat
  | [] => none
  | v :: rest => if v ≤ 100 then some v else firstInRange rest

/-- `_parse_pct` of `src/rycom_parking.py` lines 164-177: first the
percent-sign pattern, accepted when in range; otherwise the standalone-token
scan; otherwise `None`. -/
def _parse_pct (text : String) : Option Nat :=
  match searchPct text.toList with
  | some v =>
    if v ≤ 100 then some v
    else firstInRange (findallTokens text.toList)
  | none => firstInRange (findallTokens text.toList)

/-- `try_ocr` of `src/rycom_parking.py` lines 180-199.
`tesseractAvailable` models the module flag `_TESSERACT_AVAILABLE`
(lines 46-50); `recog` models the combined preprocessing and
`pytesseract.image_to_string` step inside the `try` block, with
`Except.error` standing for any raised exception and `Except.ok raw` for
the recognised text. -/
def try_ocr (tesseractAvailable : Bool) (recog : Except String String) :
    Option Nat × String :=
  if !tesseractAvailable then (none, "")
  else
    match recog with
    | Except.error _ => (none, "")
    | Except.ok raw => (_parse_pct raw, raw.trim)

/-- An RGB pixel, channels in `0..255` as produced by `img.getpixel`. -/
structure Rgb where
  r : Nat
  g : Nat
  b : Nat
deriving DecidableEq

/-- A decoded RGB frame: dimensions and a pixel map, modelling the PIL image
after `convert("RGB")`. -/
structure Img where
  w : Nat
  h : Nat
  px : Nat → Nat → Rgb

/-- `colorsys.rgb_to_hsv` with exact rationals in place of floats,
returning `(h, s, v)` for channel values in `[0, 1]`. -/
def rgb_to_hsv (r g b : ℚ) : ℚ × ℚ × ℚ :=
  let maxc := max r (max g b)
  let minc := min r (min g b)
  let v := maxc
  if minc = maxc then (0, 0, v)
  else
    let s := (maxc - minc) / maxc
    let rc := (maxc - r) / (maxc - minc)
    let gc := (maxc - g) / (maxc - minc)
    let bc := (maxc - b) / (maxc - minc)
    let hRaw :=
      if r = maxc then bc - gc
      else if g = maxc then 2 + rc - bc
      else 4 + gc - rc
    (Int.fract (hRaw / 6), s, v)

/-- `_classify_hue` of `src/rycom_parking.py` lines 206-216. -/
def _classify_hue (hueDeg : ℚ) : String :=
  if hueDeg < 15 ∨ hueDeg ≥ 345 then "red"
  else if hueDeg < 45 then "orange"
  else if hueDeg < 75 then "yellow"
  else if hueDeg < 165 then "green"
  else "other"

/-- The per-pixel step of `try_color_analysis` (lines 239-243): convert to
HSV, drop achromatic pixels (`s < 0.3` or `v < 0.3`), classify the rest by
hue angle. -/
def classifyPixel (p : Rgb) : Option String :=
  let hsv := rgb_to_hsv ((p.r : ℚ) / 255) ((p.g : ℚ) / 255) ((p.b : ℚ) / 255)
  if hsv.2.1 < 3 / 10 ∨ hsv.2.2 < 3 / 10 then none
  else some (_classify_hue (hsv.1 * 360))

/-- The `counts` dictionary of `try_color_analysis` (line 234), with its
Python insertion order red, orange, yellow, green, other. -/
structure HueCounts where
  red : Nat
  orange : Nat
  yellow : Nat
  green : Nat
  other : Nat
deriving DecidableEq

/-- `counts[name] += 1`.  `_classify_hue` only produces the five key names;
any other name falls to the `other` field, mirroring its `else` branch. -/
def bumpCount (c : HueCounts) (colorName : String) : HueCounts :=
  if colorName = "red" then { c with red := c.red + 1 }
  else if colorName = "orange" then { c with orange := c.orange + 1 }
  else if colorName = "yellow" then { c with yellow := c.yellow + 1 }
  else if colorName = "green" then { c with green := c.green + 1 }
  else { c with other := c.other + 1 }

/-- The counting loops of `try_color_analysis` (lines 233-243): margins
`mx = max(1, w // 8)`, `my = max(1, h // 8)`, then
`for y in range(my, h - my): for x in range(mx, w - mx)` over the pixel
classifier.  `List.range' a n` enumerates `a, a+1, ..., a+n-1`, and the
truncated `Nat` subtraction reproduces Python's empty `range(a, b)` when
`b ≤ a`. -/
def colorCounts (img : Img) : HueCounts :=
  let mx := max 1 (img.w / 8)
  let my := max 1 (img.h / 8)
  (List.range' my (img.h - my - my)).foldl
    (fun acc y =>
      (List.range' mx (img.w - mx - mx)).foldl
        (fun acc2 x =>
          match classifyPixel (img.px x y) with
          | none => acc2
          | some colorName => bumpCount acc2 colorName)
        acc)
    ⟨0, 0, 0, 0, 0⟩

/-- The same hue-bucket count, but with the trim the spec's words describe:
a border of exactly `floor(w/8)` and `floor(h/8)` per side, without the
source's `max(1, ...)`.  Declared only to compare the spec's wording with
`colorCounts` (claim C7). -/
def colorCountsSpecTrim (img : Img) : HueCounts :=
  let mx := img.w / 8
  let my := img.h / 8
  (List.range' my (img.h - my - my)).foldl
    (fun acc y =>
      (List.range' mx (img.w - mx - mx)).foldl
        (fun acc2 x =>
          match classifyPixel (img.px x y) with
          | none => acc2
          | some colorName => bumpCount acc2 colorName)
        acc)
    ⟨0, 0, 0, 0, 0⟩

/-- `max(counts, key=counts.get)` together with its count: the first key (in
insertion order red, orange, yellow, green, other) attaining the maximal
count, as Python's `max` returns the first maximal element. -/
def dominantPair (c : HueCounts) : String × Nat :=
  [("orange", c.orange), ("yellow", c.yellow), ("green", c.green),
    ("other", c.other)].foldl
    (fun best p => if best.2 < p.2 then p else best) ("red", c.red)

/-- `_COLOR_STATUS.get(color, "unknown")` (lines 77-82). -/
def _COLOR_STATUS_get (color : String) : String :=
  if color = "green" then "available"
  else if color = "yellow" then "crowded"
  else if color = "orange" then "almost_full"
  else if color = "red" then "full"
  else "unknown"

/-- `try_color_analysis` of `src/rycom_parking.py` lines 219-253.  `decoded`
models the decode steps inside the `try` block (`Image.open`, `seek`,
`convert`): `Except.error` is any raised exception, handled by the
`except` clause that returns `("unknown", "error")`. -/
def try_color_analysis (decoded : Except String Img) : String × String :=
  match decoded with
  | Except.error _ => ("unknown", "error")
  | Except.ok img =>
    let dom := dominantPair (colorCounts img)
    if dom.2 = 0 then ("unknown", "none")
    else (_COLOR_STATUS_get dom.1, dom.1)

/-- What `get_parking_snapshot` sees of a successfully fetched GIF: the
`_TESSERACT_AVAILABLE` flag and the outcomes of the two decoding steps that
consume the bytes. -/
structure GifData where
  tesseractAvailable : Bool
  ocrRecog : Except String String
  colorDecoded : Except String Img

/-- The literal dictionary lookup of line 283:
`{"available": 25, "crowded": 65, "almost_full": 85, "full": 100}.get(status)`. -/
def pct_estimate_of_status (status : String) : Option Nat :=
  if status = "available" then some 25
  else if status = "crowded" then some 65
  else if status = "almost_full" then some 85
  else if status = "full" then some 100
  else none

/-- ` ParkingSection` of `src/rycom_parking.py` lines 96-102. -/
structure ParkingSection where
  name : String
  occupancy_pct : Option Nat
  status : String
  raw_ocr : String
  detection_method : String
deriving DecidableEq

/-- `ParkingSnapshot` of `src/rycom_parking.py` lines 105-112 (without the
wall-clock `fetched_at`, which no claim mentions). -/
structure ParkingSnapshot where
  sections : List ParkingSection
  fetch_ok : Bool
  error_msg : String
deriving DecidableEq

/-- `get_parking_snapshot` of `src/rycom_parking.py` lines 260-297.
`fetchResult` models `fetch_parking_gif()`: `Except.error` is an exception
propagating to the orchestrator's `except` clause (`try_ocr` and
`try_color_analysis` never raise). -/
def get_parking_snapshot (fetchResult : Except String GifData) :
    ParkingSnapshot :=
  match fetchResult with
  | Except.error e => { sections := [], fetch_ok := false, error_msg := e }
  | Except.ok gif =>
    let ocrOut := try_ocr gif.tesseractAvailable gif.ocrRecog
    match ocrOut.1 with
    | some pct =>
      { sections :=
          [{ name := "イオンモール沖縄ライカム",
             occupancy_pct := some pct,
             status := _pct_to_status (pct : Int),
             raw_ocr := ocrOut.2,
             detection_method := "ocr" }],
        fetch_ok := true, error_msg := "" }
    | none =>
      let colorOut := try_color_analysis gif.colorDecoded
      { sections :=
          [{ name := "イオンモール沖縄ライカム",
             occupancy_pct := pct_estimate_of_status colorOut.1,
             status := colorOut.1,
             raw_ocr :=
               if ocrOut.2 = "" then "dominant_color=" ++ colorOut.2
               else ocrOut.2,
             detection_method := "color" }],
        fetch_ok := true, error_msg := "" }

/-- The process exit status of `main` (lines 345-361) in terms of the
snapshot outcome: `main` contains no `sys.exit` call and returns normally
after printing (and optionally saving) the snapshot, so the Python process
exits with status 0 whatever the snapshot holds. -/
def mainExitStatus (fetchResult : Except String GifData) : Nat :=
  let _snapshot := get_parking_snapshot fetchResult
  0

end Rycom

namespace Parcocity

/-- `_pct_to_status` of `src/parcocity_parking.py` lines 59-66 (the second
copy of the threshold function). -/
def _pct_to_status (pct : Int) : String :=
  if pct ≥ 100 then "full"
  else if pct ≥ 80 then "almost_full"
  else if pct ≥ 50 then "crowded"
  else "available"

/-- Case-insensitive literal match (for `re.IGNORECASE`): consume the
pattern characters from the front of the input, returning the rest. -/
def matchLiteralCI : List Char → List Char → Option (List Char)
  | [], rest => some rest
  | _ :: _, [] => none
  | p :: ps, c :: cs =>
    if c.toLower = p.toLower then matchLiteralCI ps cs else none

/-- One attempt of `_OCCUPANCY_RE = /parking_(\d+)per\.svg` (line 56,
`re.IGNORECASE`) at a fixed start position: the literal prefix, then a
non-empty maximal digit run (greedy `\d+` needs no backtracking: a digit
never matches the following literal `p`), then the literal suffix. -/
def matchOccupancyAt (l : List Char) : Option Nat :=
  match matchLiteralCI "/parking_".toList l with
  | none => none
  | some rest =>
    let digs := rest.takeWhile Char.isDigit
    if digs.length = 0 then none
    else
      match matchLiteralCI "per.svg".toList (rest.dropWhile Char.isDigit) with
      | some _ => some (digitsToNat digs)
      | none => none

/-- `_OCCUPANCY_RE.search(src)`: leftmost match, group 1 as a number. -/
def searchOccupancy : List Char → Option Nat
  | [] => none
  | c :: rest =>
    match matchOccupancyAt (c :: rest) with
    | some v => some v
    | none => searchOccupancy rest

/-- `ParkingSection` of `src/parcocity_parking.py` lines 92-99. -/
structure ParkingSection where
  name : String
  occupancy_pct : Option Nat
  status : String
  img_src : String
deriving DecidableEq

/-- What `parse_parking_html` observes of the soup: no `#factory-car-pc`
container, a container without an `img` child, or an `img` whose `src`
attribute is the given string (`img.get("src", "")` supplies `""` when the
attribute is missing). -/
inductive HtmlDoc where
  | noContainer
  | noImg
  | img (src : String)
deriving DecidableEq

/-- `parse_parking_html` of `src/parcocity_parking.py` lines 126-166. -/
def parse_parking_html (doc : HtmlDoc) : List ParkingSection :=
  match doc with
  | HtmlDoc.noContainer =>
    [{ name := "パルコシティ全体", occupancy_pct := none,
       status := "unknown", img_src := "" }]
  | HtmlDoc.noImg =>
    [{ name := "パルコシティ全体", occupancy_pct := none,
       status := "unknown", img_src := "" }]
  | HtmlDoc.img src =>
    match searchOccupancy src.toList with
    | none =>
      [{ name := "パルコシティ全体", occupancy_pct := none,
         status := "unknown", img_src := src }]
    | some pct =>
      [{ name := "パルコシティ全体", occupancy_pct := some pct,
         status := _pct_to_status (pct : Int), img_src := src }]

/-- `ParkingSnapshot` of `src/parcocity_parking.py` lines 102-111 (without
the wall-clock `fetched_at`). -/
structure ParkingSnapshot where
  sections : List ParkingSection
  fetch_ok : Bool
  error_msg : String
deriving DecidableEq

/-- `get_parking_snapshot` of `src/parcocity_parking.py` lines 169-179.
`fetchResult` models the `fetch_html` call and the soup construction inside
the `try` block: `Except.error` is any exception caught by its `except`
clause. -/
def get_parking_snapshot (fetchResult : Except String HtmlDoc) :
    ParkingSnapshot :=
  match fetchResult with
  | Except.error e => { sections := [], fetch_ok := false, error_msg := e }
  | Except.ok doc =>
    { sections := parse_parking_html doc, fetch_ok := true, error_msg := "" }

/-- The process exit status of `main` (lines 267-304) in single-shot mode
(no `--loop`): the `while` body runs once and breaks, `main` contains no
`sys.exit` call and returns normally, so the process exits with status 0
whatever the snapshot holds. -/
def mainExitStatus (fetchResult : Except String HtmlDoc) : Nat :=
  let _snapshot := get_parking_snapshot fetchResult
  0

end Parcocity

/-! ## Helper lemmas shared by the claim theorems -/

/-- The colour-branch estimates are consistent with the threshold function:
whenever the line-283 dictionary yields a percentage for a status, the
threshold function maps that percentage back to the same status. -/
theorem pct_estimate_consistent (st : String) (p : Nat)
    (h : Rycom.pct_estimate_of_status st = some p) :
    Rycom._pct_to_status (p : Int) = st := by
  unfold Rycom.pct_estimate_of_status at h
  split_ifs at h with h1 h2 h3 h4
  · injection h with h'
    subst h'
    subst h1
    decide
  · injection h with h'
    subst h'
    subst h2
    decide
  · injection h with h'
    subst h'
    subst h3
    decide
  · injection h with h'
    subst h'
    subst h4
    decide

/-- Shape of the rycom snapshot when the OCR path yields no percentage:
the single colour-fallback section. -/
theorem rycom_snapshot_ocr_none (gif : Rycom.GifData)
    (h : (Rycom.try_ocr gif.tesseractAvailable gif.ocrRecog).1 = none) :
    Rycom.get_parking_snapshot (Except.ok gif) =
      { sections :=
          [{ name := "イオンモール沖縄ライカム",
             occupancy_pct :=
               Rycom.pct_estimate_of_status
                 (Rycom.try_color_analysis gif.colorDecoded).1,
             status := (Rycom.try_color_analysis gif.colorDecoded).1,
             raw_ocr :=
               if (Rycom.try_ocr gif.tesseractAvailable gif.ocrRecog).2 = ""
               then "dominant_color=" ++
                 (Rycom.try_color_analysis gif.colorDecoded).2
               else (Rycom.try_ocr gif.tesseractAvailable gif.ocrRecog).2,
             detection_method := "color" }],
        fetch_ok := true, error_msg := "" } := by
  simp only [Rycom.get_parking_snapshot]
  rw [h]

/-- Shape of the rycom snapshot when the OCR path yields a percentage:
the single OCR section. -/
theorem rycom_snapshot_ocr_some (gif : Rycom.GifData) (pct : Nat)
    (h : (Rycom.try_ocr gif.tesseractAvailable gif.ocrRecog).1 = some pct) :
    Rycom.get_parking_snapshot (Except.ok gif) =
      { sections :=
          [{ name := "イオンモール沖縄ライカム",
             occupancy_pct := some pct,
             status := Rycom._pct_to_status (pct : Int),
             raw_ocr := (Rycom.try_ocr gif.tesseractAvailable gif.ocrRecog).2,
             detection_method := "ocr" }],
        fetch_ok := true, error_msg := "" } := by
  simp only [Rycom.get_parking_snapshot]
  rw [h]

/-! ## Claim theorems -/

/-- C1: the percentage-to-status threshold function is total over the
integers, the two copies in the two scripts compute the same result for
every integer input, on 0-100 it returns exactly one of available, crowded,
almost_full, full, and its boundaries sit at 50, 80 and 100 as specified
(in particular 49 → available, 50 → crowded, 79 → crowded,
80 → almost_full, 99 → almost_full, 100 → full). -/
theorem claim_C1_threshold (p : Int) :
    Rycom._pct_to_status p = Parcocity._pct_to_status p ∧
    (0 ≤ p → p ≤ 100 →
      (Rycom._pct_to_status p = "available" ∨
        Rycom._pct_to_status p = "crowded" ∨
        Rycom._pct_to_status p = "almost_full" ∨
        Rycom._pct_to_status p = "full")) ∧
    (100 ≤ p → Rycom._pct_to_status p = "full") ∧
    (80 ≤ p → p < 100 → Rycom._pct_to_status p = "almost_full") ∧
    (50 ≤ p → p < 80 → Rycom._pct_to_status p = "crowded") ∧
    (p < 50 → Rycom._pct_to_status p = "available") ∧
    (Rycom._pct_to_status 49 = "available" ∧
      Rycom._pct_to_status 50 = "crowded" ∧
      Rycom._pct_to_status 79 = "crowded" ∧
      Rycom._pct_to_status 80 = "almost_full" ∧
      Rycom._pct_to_status 99 = "almost_full" ∧
      Rycom._pct_to_status 100 = "full") := by
  refine ⟨rfl, ?_, ?_, ?_, ?_, ?_, by decide⟩ <;>
    · intros
      unfold Rycom._pct_to_status
      split_ifs <;> first | rfl | omega | decide

/-- Witness for C1 at the concrete input 85. -/
theorem claim_C1_threshold_witness :
    Rycom._pct_to_status 85 = "almost_full" :=
  (claim_C1_threshold 85).2.2.2.1 (by decide) (by decide)

/-- C2: `_parse_pct` first looks for the 1-3-digit-then-percent pattern and
returns its value when in `[0, 100]`; otherwise it falls back to the first
standalone 1-3-digit token in `[0, 100]`; otherwise it returns none.  In
particular "50%" → 50, "Occupancy 100 %" → 100, "abc" → none,
"150%" → none, "7" → 7. -/
theorem claim_C2_parse_pct :
    Rycom._parse_pct "50%" = some 50 ∧
    Rycom._parse_pct "Occupancy 100 %" = some 100 ∧
    Rycom._parse_pct "abc" = none ∧
    Rycom._parse_pct "150%" = none ∧
    Rycom._parse_pct "7" = some 7 ∧
    (∀ s : String, ∀ v : Nat, Rycom.searchPct s.toList = some v → v ≤ 100 →
      Rycom._parse_pct s = some v) ∧
    (∀ s : String, ∀ v : Nat, Rycom.searchPct s.toList = some v → 100 < v →
      Rycom._parse_pct s = Rycom.firstInRange (Rycom.findallTokens s.toList)) ∧
    (∀ s : String, Rycom.searchPct s.toList = none →
      Rycom._parse_pct s = Rycom.firstInRange (Rycom.findallTokens s.toList)) := by
  refine ⟨by decide, by decide, by decide, by decide, by decide, ?_, ?_, ?_⟩
  · intro s v hs hv
    unfold Rycom._parse_pct
    rw [hs]
    simp [hv]
  · intro s v hs hv
    unfold Rycom._parse_pct
    rw [hs]
    simp [Nat.not_le.mpr hv]
  · intro s hs
    unfold Rycom._parse_pct
    rw [hs]

/-- Witness for C2: the percent-pattern clause applied at "42%". -/
theorem claim_C2_parse_pct_witness : Rycom._parse_pct "42%" = some 42 :=
  claim_C2_parse_pct.2.2.2.2.2.1 "42%" 42 (by decide) (by decide)

/-- C9: the OCR path never propagates an exception: when the recognition
engine is absent, or the decode/recognition step raises, `try_ocr` returns
`(none, "")`. -/
theorem claim_C9_try_ocr_silent (available : Bool)
    (recog : Except String String) :
    (available = false → Rycom.try_ocr available recog = (none, "")) ∧
    (∀ e : String, recog = Except.error e →
      Rycom.try_ocr available recog = (none, "")) := by
  constructor
  · rintro rfl
    rfl
  · rintro e rfl
    unfold Rycom.try_ocr
    cases available <;> rfl

/-- Witness for C9: engine absent on the concrete input `ok "77%"`. -/
theorem claim_C9_try_ocr_silent_witness :
    Rycom.try_ocr false (Except.ok "77%") = (none, "") :=
  (claim_C9_try_ocr_silent false (Except.ok "77%")).1 rfl

/-- Every section of a rycom snapshot with a present percentage carries the
status derived from that percentage by the threshold function. -/
theorem rycom_sections_consistent (f : Except String Rycom.GifData) :
    ∀ sec ∈ (Rycom.get_parking_snapshot f).sections, ∀ p : Nat,
      sec.occupancy_pct = some p →
      sec.status = Rycom._pct_to_status (p : Int) := by
  intro sec hsec p hp
  cases f with
  | error e => simp [Rycom.get_parking_snapshot] at hsec
  | ok gif =>
    rcases hoc : (Rycom.try_ocr gif.tesseractAvailable gif.ocrRecog).1
      with _ | pct
    · rw [rycom_snapshot_ocr_none gif hoc] at hsec
      simp only [List.mem_singleton] at hsec
      subst hsec
      exact (pct_estimate_consistent _ _ hp).symm
    · rw [rycom_snapshot_ocr_some gif pct hoc] at hsec
      simp only [List.mem_singleton] at hsec
      subst hsec
      simp only [Option.some.injEq] at hp
      subst hp
      rfl

/-- Every section produced by the parcocity HTML parser with a present
percentage carries the status derived from it by the threshold function. -/
theorem parcocity_parse_consistent (doc : Parcocity.HtmlDoc) :
    ∀ sec ∈ Parcocity.parse_parking_html doc, ∀ p : Nat,
      sec.occupancy_pct = some p →
      sec.status = Parcocity._pct_to_status (p : Int) := by
  intro sec hsec p hp
  cases doc with
  | noContainer =>
    simp only [Parcocity.parse_parking_html, List.mem_singleton] at hsec
    subst hsec
    simp at hp
  | noImg =>
    simp only [Parcocity.parse_parking_html, List.mem_singleton] at hsec
    subst hsec
    simp at hp
  | img src =>
    rcases hsrc : Parcocity.searchOccupancy src.toList with _ | pct
    · simp only [Parcocity.parse_parking_html, hsrc,
        List.mem_singleton] at hsec
      subst hsec
      simp at hp
    · simp only [Parcocity.parse_parking_html, hsrc,
        List.mem_singleton] at hsec
      subst hsec
      simp only [Option.some.injEq] at hp
      subst hp
      rfl

/-- C3: in every section produced by either script's pipeline (the OCR
path, the colour-fallback path with its fixed 25/65/85/100 estimates, and
the SVG-filename path), a present occupancy percentage always comes with
the status the threshold function assigns to it. -/
theorem claim_C3_status_invariant :
    (∀ f : Except String Rycom.GifData,
      ∀ sec ∈ (Rycom.get_parking_snapshot f).sections, ∀ p : Nat,
        sec.occupancy_pct = some p →
        sec.status = Rycom._pct_to_status (p : Int)) ∧
    (∀ doc : Parcocity.HtmlDoc,
      ∀ sec ∈ Parcocity.parse_parking_html doc, ∀ p : Nat,
        sec.occupancy_pct = some p →
        sec.status = Parcocity._pct_to_status (p : Int)) ∧
    (∀ f : Except String Parcocity.HtmlDoc,
      ∀ sec ∈ (Parcocity.get_parking_snapshot f).sections, ∀ p : Nat,
        sec.occupancy_pct = some p →
        sec.status = Parcocity._pct_to_status (p : Int)) := by
  refine ⟨rycom_sections_consistent, parcocity_parse_consistent, ?_⟩
  intro f sec hsec p hp
  cases f with
  | error e => simp [Parcocity.get_parking_snapshot] at hsec
  | ok doc =>
    exact parcocity_parse_consistent doc sec
      (by simpa [Parcocity.get_parking_snapshot] using hsec) p hp

/-- Witness for C3 on the concrete SVG input `parking_50per.svg`. -/
theorem claim_C3_status_invariant_witness :
    ({ name := "パルコシティ全体", occupancy_pct := some 50,
       status := "crowded",
       img_src := "/images/parking/pc/parking_50per.svg" } :
      Parcocity.ParkingSection).status =
      Parcocity._pct_to_status ((50 : Nat) : Int) :=
  claim_C3_status_invariant.2.1
    (Parcocity.HtmlDoc.img "/images/parking/pc/parking_50per.svg")
    { name := "パルコシティ全体", occupancy_pct := some 50,
      status := "crowded",
      img_src := "/images/parking/pc/parking_50per.svg" }
    (by decide) 50 rfl

/-- C4: whenever the OCR path yields no percentage, the snapshot's section
is labelled detection_method = "color" (never "ocr"), its status is the
colour-derived one and its occupancy percentage is the fixed representative
estimate for that status: available = 25, crowded = 65, almost_full = 85,
full = 100, absent for unknown. -/
theorem claim_C4_color_fallback (gif : Rycom.GifData)
    (h : (Rycom.try_ocr gif.tesseractAvailable gif.ocrRecog).1 = none) :
    ∀ sec ∈ (Rycom.get_parking_snapshot (Except.ok gif)).sections,
      sec.detection_method = "color" ∧
      sec.detection_method ≠ "ocr" ∧
      sec.status = (Rycom.try_color_analysis gif.colorDecoded).1 ∧
      sec.occupancy_pct = Rycom.pct_estimate_of_status sec.status ∧
      (sec.status = "available" → sec.occupancy_pct = some 25) ∧
      (sec.status = "crowded" → sec.occupancy_pct = some 65) ∧
      (sec.status = "almost_full" → sec.occupancy_pct = some 85) ∧
      (sec.status = "full" → sec.occupancy_pct = some 100) ∧
      (sec.status = "unknown" → sec.occupancy_pct = none) := by
  intro sec hsec
  rw [rycom_snapshot_ocr_none gif h] at hsec
  simp only [List.mem_singleton] at hsec
  subst hsec
  refine ⟨rfl, by show ("color" : String) ≠ "ocr"; decide, rfl, rfl,
    ?_, ?_, ?_, ?_, ?_⟩ <;>
    · intro hs
      simp only at hs ⊢
      rw [hs]
      decide

/-- Witness for C4: an input whose OCR path fails (engine absent) and whose
colour decode errors; the section is the colour-labelled unknown one. -/
theorem claim_C4_color_fallback_witness :
    ({ name := "イオンモール沖縄ライカム", occupancy_pct := none,
       status := "unknown", raw_ocr := "dominant_color=error",
       detection_method := "color" } :
      Rycom.ParkingSection).detection_method = "color" :=
  (claim_C4_color_fallback
    { tesseractAvailable := false, ocrRecog := Except.ok "",
      colorDecoded := Except.error "decode failure" }
    rfl
    { name := "イオンモール沖縄ライカム", occupancy_pct := none,
      status := "unknown", raw_ocr := "dominant_color=error",
      detection_method := "color" }
    (by decide)).1

/-- C6 (code-bug evidence): the SVG-filename path performs no range check
on the extracted digits, so the crafted source
`/images/parking/pc/parking_150per.svg` yields a section whose
occupancy_pct is 150, outside the documented 0-100 range. -/
theorem claim_C6_svg_range_bug :
    Parcocity.parse_parking_html
        (Parcocity.HtmlDoc.img "/images/parking/pc/parking_150per.svg") =
      [{ name := "パルコシティ全体", occupancy_pct := some 150,
         status := "full",
         img_src := "/images/parking/pc/parking_150per.svg" }] ∧
    ¬ (150 : Nat) ≤ 100 := by decide

/-- C5 counterexample: the orchestrator copies the caught exception's text
verbatim into error_msg, and nothing makes that text non-empty — an
exception whose string representation is empty yields a snapshot with
fetch_ok = false and an empty error message, against the claim. -/
theorem claim_C5_counterexample :
    (Rycom.get_parking_snapshot (Except.error "")).fetch_ok = false ∧
    (Rycom.get_parking_snapshot (Except.error "")).sections = [] ∧
    (Rycom.get_parking_snapshot (Except.error "")).error_msg = "" :=
  ⟨rfl, rfl, rfl⟩

/-- C5 (amended): in both scripts, fetch_ok = false implies the sections
list is empty and the error message equals the caught exception's message
(hence it is non-empty exactly when that message is), and fetch_ok = true
implies the error message is empty. -/
theorem claim_C5_snapshot_invariant :
    (∀ f : Except String Rycom.GifData,
      ((Rycom.get_parking_snapshot f).fetch_ok = false →
        (Rycom.get_parking_snapshot f).sections = [] ∧
        ∃ e, f = Except.error e ∧
          (Rycom.get_parking_snapshot f).error_msg = e) ∧
      ((Rycom.get_parking_snapshot f).fetch_ok = true →
        (Rycom.get_parking_snapshot f).error_msg = "")) ∧
    (∀ f : Except String Parcocity.HtmlDoc,
      ((Parcocity.get_parking_snapshot f).fetch_ok = false →
        (Parcocity.get_parking_snapshot f).sections = [] ∧
        ∃ e, f = Except.error e ∧
          (Parcocity.get_parking_snapshot f).error_msg = e) ∧
      ((Parcocity.get_parking_snapshot f).fetch_ok = true →
        (Parcocity.get_parking_snapshot f).error_msg = "")) := by
  constructor
  · intro f
    cases f with
    | error e => exact ⟨fun _ => ⟨rfl, e, rfl, rfl⟩, fun hfo => Bool.noConfusion hfo⟩
    | ok gif =>
      rcases hoc : (Rycom.try_ocr gif.tesseractAvailable gif.ocrRecog).1
        with _ | pct
      · rw [rycom_snapshot_ocr_none gif hoc]
        exact ⟨fun hfo => Bool.noConfusion hfo, fun _ => rfl⟩
      · rw [rycom_snapshot_ocr_some gif pct hoc]
        exact ⟨fun hfo => Bool.noConfusion hfo, fun _ => rfl⟩
  · intro f
    cases f with
    | error e => exact ⟨fun _ => ⟨rfl, e, rfl, rfl⟩, fun hfo => Bool.noConfusion hfo⟩
    | ok doc => exact ⟨fun hfo => Bool.noConfusion hfo, fun _ => rfl⟩

/-- Witness for C5 (amended) at a concrete failed fetch. -/
theorem claim_C5_snapshot_invariant_witness :
    (Rycom.get_parking_snapshot
        (Except.error "connection timeout")).sections = [] :=
  ((claim_C5_snapshot_invariant.1 (Except.error "connection timeout")).1
    rfl).1

/-- C7 counterexample: on a 1×1 red image the source's margins
`max(1, w // 8) = 1` leave no pixel to analyse, while the region the claim
describes (border exactly `floor(w/8) = 0`) contains the red centre pixel,
so the two hue-bucket counts differ. -/
theorem claim_C7_counterexample :
    Rycom.colorCounts
        { w := 1, h := 1, px := fun _ _ => { r := 255, g := 0, b := 0 } } ≠
      Rycom.colorCountsSpecTrim
        { w := 1, h := 1, px := fun _ _ => { r := 255, g := 0, b := 0 } } := by
  have h1 : Rycom.colorCounts
      { w := 1, h := 1, px := fun _ _ => { r := 255, g := 0, b := 0 } } =
      ⟨0, 0, 0, 0, 0⟩ := rfl
  have hpx : Rycom.classifyPixel { r := 255, g := 0, b := 0 } =
      some "red" := by
    norm_num [Rycom.classifyPixel, Rycom.rgb_to_hsv, Rycom._classify_hue,
      Int.fract]
  have h2 : Rycom.colorCountsSpecTrim
      { w := 1, h := 1, px := fun _ _ => { r := 255, g := 0, b := 0 } } =
      ⟨1, 0, 0, 0, 0⟩ := by
    norm_num [Rycom.colorCountsSpecTrim, List.range', hpx, Rycom.bumpCount]
  rw [h1, h2]
  decide

/-- C7 (amended): the colour-classification path analyses exactly the
pixels of the central region obtained by trimming a border of width
`max(1, floor(w/8))` and height `max(1, floor(h/8))` on each side — two
images of equal dimensions that agree on that region produce identical
hue-bucket counts, so no other pixel contributes. -/
theorem claim_C7_central_region (a b : Rycom.Img)
    (hw : a.w = b.w) (hh : a.h = b.h)
    (hpx : ∀ x y : Nat,
      max 1 (a.w / 8) ≤ x → x < a.w - max 1 (a.w / 8) →
      max 1 (a.h / 8) ≤ y → y < a.h - max 1 (a.h / 8) →
      a.px x y = b.px x y) :
    Rycom.colorCounts a = Rycom.colorCounts b := by
  simp only [Rycom.colorCounts]
  rw [← hw, ← hh]
  apply List.foldl_ext
  intro acc y hy
  apply List.foldl_ext
  intro acc2 x hx
  rw [List.mem_range'_1] at hx hy
  rw [hpx x y (by omega) (by omega) (by omega) (by omega)]

/-- Witness for C7 (amended): two 3×3 images agreeing only on the centre
pixel (the whole trimmed region) get equal counts. -/
theorem claim_C7_central_region_witness :
    Rycom.colorCounts
        { w := 3, h := 3, px := fun _ _ => { r := 255, g := 0, b := 0 } } =
      Rycom.colorCounts
        { w := 3, h := 3,
          px := fun x y =>
            if x = 1 ∧ y = 1 then { r := 255, g := 0, b := 0 }
            else { r := 0, g := 255, b := 0 } } :=
  claim_C7_central_region _ _ rfl rfl (by
    intro x y hx hx' hy hy'
    simp only at hx hx' hy hy'
    have hx1 : x = 1 := by omega
    have hy1 : y = 1 := by omega
    subst hx1
    subst hy1
    decide)

/-- C8 counterexample: when the colour path itself errors, the fallback
section is still labelled detection_method = "color" — the "none" label the
claim requires for that case never occurs. -/
theorem claim_C8_counterexample :
    Rycom.try_color_analysis (Except.error "decode failure") =
      ("unknown", "error") ∧
    (Rycom.get_parking_snapshot (Except.ok
        { tesseractAvailable := false, ocrRecog := Except.ok "",
          colorDecoded := Except.error "decode failure" })).sections.map
      (fun sec => sec.detection_method) = ["color"] ∧
    ("color" : String) ≠ "none" := by decide

/-- C8 (amended): when both strategies fail to produce usable signal (the
OCR path yields no percentage and the colour path returns status unknown —
zero informative pixels or an error alike), the section has occupancy_pct
absent, status unknown and detection_method "color" in both cases; the
fallback branch never labels a section "none". -/
theorem claim_C8_double_failure (gif : Rycom.GifData)
    (hocr : (Rycom.try_ocr gif.tesseractAvailable gif.ocrRecog).1 = none)
    (hcol : (Rycom.try_color_analysis gif.colorDecoded).1 = "unknown") :
    ∀ sec ∈ (Rycom.get_parking_snapshot (Except.ok gif)).sections,
      sec.occupancy_pct = none ∧ sec.status = "unknown" ∧
      sec.detection_method = "color" := by
  intro sec hsec
  rw [rycom_snapshot_ocr_none gif hocr] at hsec
  simp only [List.mem_singleton] at hsec
  subst hsec
  refine ⟨?_, ?_, rfl⟩
  · show Rycom.pct_estimate_of_status
      (Rycom.try_color_analysis gif.colorDecoded).1 = none
    rw [hcol]
    decide
  · exact hcol

/-- Witness for C8 (amended) at a concrete colour-decode error. -/
theorem claim_C8_double_failure_witness :
    ({ name := "イオンモール沖縄ライカム", occupancy_pct := none,
       status := "unknown", raw_ocr := "dominant_color=error",
       detection_method := "color" } :
      Rycom.ParkingSection).occupancy_pct = none :=
  (claim_C8_double_failure
    { tesseractAvailable := false, ocrRecog := Except.ok "",
      colorDecoded := Except.error "decode failure" }
    rfl rfl
    { name := "イオンモール沖縄ライカム", occupancy_pct := none,
      status := "unknown", raw_ocr := "dominant_color=error",
      detection_method := "color" }
    (by decide)).1

/-- C10 counterexample: an unrecoverable fetch failure in single-shot mode
still terminates the process with exit status 0, not 1 — neither script's
`main` ever calls `sys.exit`. -/
theorem claim_C10_counterexample :
    (Parcocity.get_parking_snapshot
        (Except.error "fetch failed")).fetch_ok = false ∧
    Parcocity.mainExitStatus (Except.error "fetch failed") = 0 ∧
    Parcocity.mainExitStatus (Except.error "fetch failed") ≠ 1 := by decide

/-- C10 (amended): in single-shot mode both scripts' processes exit with
status 0 regardless of parse or fetch failure; failures are reported only
through the snapshot's fetch_ok and error_msg fields. -/
theorem claim_C10_exit_status :
    (∀ f : Except String Parcocity.HtmlDoc,
      Parcocity.mainExitStatus f = 0) ∧
    (∀ f : Except String Rycom.GifData, Rycom.mainExitStatus f = 0) :=
  ⟨fun _ => rfl, fun _ => rfl⟩
